import Mathlib

/-!
Verification of the trend/seasonality estimator in
`src/infrastructure/lambda/data-processor/simple_ml.py`.

Python floats are idealised as rational numbers; a possibly non-finite
float (NaN or ±inf) is modelled as `Option ℚ` with `none` for the
non-finite values, which the source treats uniformly via
`math.isnan(v) or math.isinf(v)`.  `math.sqrt` and `math.sin` are
modelled by `Real.sqrt` and `Real.sin`, so quantities downstream of the
seasonality signal live in `ℝ`.  Python's `round(x, n)` performs
round-half-to-even on the n-th decimal digit and `int(x)` truncates
toward zero; both are modelled exactly below.  The recommendation and
capacity-requirement string lists are not modelled: the spec declares
their exact wording non-normative and no claim mentions them.
-/

namespace SimpleML

/-- A Python float: `some q` is a finite value, `none` a NaN or ±inf. -/
abbrev PyFloat := Option ℚ

/-- Result dictionary of `_calculate_trend`.  The intercept is an
`Option ℚ` because the `len < 2` branch returns `data_series[0]`, which
can itself be a non-finite float. -/
structure TrendFit where
  slope : ℚ
  intercept : Option ℚ
  r_squared : ℚ
deriving DecidableEq

/-- `_calculate_mean`: `sum(data) / len(data) if data else 0`. -/
def calculateMean (data : List ℚ) : ℚ :=
  if data = [] then 0 else data.sum / (data.length : ℚ)

/-- The `valid_pairs` list of `_calculate_trend`: indices are zipped with
the series and pairs whose value is non-finite are dropped (a kept pair
keeps its original index). -/
def validPairs (ds : List PyFloat) : List (ℕ × ℚ) :=
  ((List.range ds.length).zip ds).filterMap fun p => p.2.map fun v => (p.1, v)

/-- `_calculate_trend`: least-squares line over `(i, yᵢ)` with degenerate
branches for short series, too few valid values and a zero denominator;
R² is clamped to `[0, 1]`. -/
def calculateTrend (ds : List PyFloat) : TrendFit :=
  if ds.length < 2 then ⟨0, ds.headD (some 0), 0⟩
  else
    let vp := validPairs ds
    if vp.length < 2 then ⟨0, some (vp.headD (0, 0)).2, 0⟩
    else
      let n : ℚ := vp.length
      let sum_x : ℚ := (vp.map fun p => (p.1 : ℚ)).sum
      let sum_y : ℚ := (vp.map Prod.snd).sum
      let sum_xy : ℚ := (vp.map fun p => (p.1 : ℚ) * p.2).sum
      let sum_x2 : ℚ := (vp.map fun p => ((p.1 : ℚ)) ^ 2).sum
      let denominator : ℚ := n * sum_x2 - sum_x ^ 2
      if denominator = 0 then ⟨0, some (calculateMean (vp.map Prod.snd)), 0⟩
      else
        let m : ℚ := (n * sum_xy - sum_x * sum_y) / denominator
        let b : ℚ := (sum_y - m * sum_x) / n
        let y_mean : ℚ := calculateMean (vp.map Prod.snd)
        let ss_total : ℚ := (vp.map fun p => (p.2 - y_mean) ^ 2).sum
        let ss_res : ℚ := (vp.map fun p => (p.2 - (m * (p.1 : ℚ) + b)) ^ 2).sum
        let r0 : ℚ := if 0 < ss_total then 1 - ss_res / ss_total else 0
        ⟨m, some b, max 0 (min 1 r0)⟩

/-- `_calculate_std`: sample standard deviation with Bessel's correction,
`0` for fewer than two values. -/
noncomputable def calculateStd (data : List ℚ) : ℝ :=
  if data.length < 2 then 0
  else
    Real.sqrt ((((data.map fun x => (x - calculateMean data) ^ 2).sum
      / ((data.length : ℚ) - 1) : ℚ) : ℝ))

/-- Result dictionary of `_detect_seasonality`. -/
structure SeasonalityResult where
  has_seasonality : Prop
  variation : ℝ
  factor : ℝ

/-- `_detect_seasonality`: coefficient-of-variation heuristic with
degenerate defaults for fewer than three valid values or a zero mean. -/
noncomputable def detectSeasonality (ds : List PyFloat) : SeasonalityResult :=
  if ds.length < 3 then ⟨False, 0, 1⟩
  else
    let data := ds.filterMap id
    if data.length < 3 then ⟨False, 0, 1⟩
    else
      let mean := calculateMean data
      if mean = 0 then ⟨False, 0, 1⟩
      else
        let variation : ℝ := calculateStd data / (mean : ℝ)
        ⟨variation > 0.15, variation, 1 + variation * 0.5⟩

open scoped Classical in
/-- Round-half-to-even to the nearest integer (the tie rule of Python's
`round`). -/
noncomputable def roundHalfEven (x : ℝ) : ℤ :=
  if x - ⌊x⌋ < 1 / 2 then ⌊x⌋
  else if 1 / 2 < x - ⌊x⌋ then ⌊x⌋ + 1
  else if Even ⌊x⌋ then ⌊x⌋ else ⌊x⌋ + 1

/-- Python's `round(x, 2)`. -/
noncomputable def round2 (x : ℝ) : ℝ := (roundHalfEven (x * 100) : ℝ) / 100

/-- Python's `round(x, 1)`. -/
noncomputable def round1 (x : ℝ) : ℝ := (roundHalfEven (x * 10) : ℝ) / 10

/-- Python's `int(q)` for a rational value: truncation toward zero. -/
def intTrunc (q : ℚ) : ℤ := if q < 0 then ⌈q⌉ else ⌊q⌋

/-- The `parameters` mapping of `predict_fuel_price_with_ml`; `none`
models an absent key. -/
structure FuelParameters where
  fuel_increase_percent : Option ℚ
  time_horizon_months : Option ℕ
  fuel_cost_ratio : Option ℚ

/-- One row of `logistics_data`; `none` models an absent key. -/
structure LogisticsRow where
  fuel_used_l : Option ℚ
  fuel_price_per_l : Option ℚ

/-- The `historical_costs` extraction: rows having both fuel fields
contribute `fuel_used_l * fuel_price_per_l` when that product is
positive. -/
def historicalCosts (rows : List LogisticsRow) : List ℚ :=
  rows.filterMap fun r =>
    match r.fuel_used_l, r.fuel_price_per_l with
    | some u, some p => if 0 < u * p then some (u * p) else none
    | _, _ => none

/-- The trend fitted on the extracted fuel costs. -/
def fuelTrend (rows : List LogisticsRow) : TrendFit :=
  calculateTrend ((historicalCosts rows).map some)

/-- The seasonality signal on the extracted fuel costs. -/
noncomputable def fuelSeas (rows : List LogisticsRow) : SeasonalityResult :=
  detectSeasonality ((historicalCosts rows).map some)

/-- `base_monthly_impact` of the fuel predictor:
`mean(costs) * shipment_count * fuel_cost_ratio * (fuel_increase_percent / 100)`
with the defaulted parameters. -/
def fuelBase (p : FuelParameters) (rows : List LogisticsRow) : ℚ :=
  calculateMean (historicalCosts rows) * (rows.length : ℚ)
    * (p.fuel_cost_ratio.getD 30 / 100) * (p.fuel_increase_percent.getD 10 / 100)

open scoped Classical in
/-- `predicted_impact` of month `month` in the fuel predictor's loop:
base impact, plus a trend adjustment when R² > 0.3, plus a sinusoidal
seasonality adjustment when seasonality is flagged. -/
noncomputable def fuelImpactAt (p : FuelParameters) (rows : List LogisticsRow)
    (month : ℕ) : ℝ :=
  let base : ℝ := (fuelBase p rows : ℚ)
  let afterTrend : ℝ :=
    if (fuelTrend rows).r_squared > 0.3 then
      base + ((fuelTrend rows).slope : ℝ) * month
        * ((p.fuel_cost_ratio.getD 30 / 100 : ℚ) : ℝ)
        * (((p.fuel_increase_percent.getD 10 : ℚ) : ℝ) / 100)
    else base
  if (fuelSeas rows).has_seasonality then
    afterTrend + afterTrend * (fuelSeas rows).variation
      * Real.sin (2 * Real.pi * month / 12) * 0.5
  else afterTrend

/-- One entry of the fuel `monthly_breakdown`.  The fallback branch of
the predictor emits entries without the optimistic/pessimistic keys,
hence those fields are `Option ℝ`. -/
structure FuelEntry where
  month : String
  monthly_cost_increase : ℝ
  cumulative_cost_increase : ℝ
  optimistic_scenario : Option ℝ
  pessimistic_scenario : Option ℝ

/-- The fuel breakdown entry of month `month`: rounded predicted impact,
rounded running total, and a ±20% band (optimistic floored at 0). -/
noncomputable def fuelEntryAt (p : FuelParameters) (rows : List LogisticsRow)
    (month : ℕ) : FuelEntry :=
  ⟨"Month " ++ toString month,
   round2 (fuelImpactAt p rows month),
   round2 (((List.range' 1 month).map (fuelImpactAt p rows)).sum),
   some (round2 (max 0 (fuelImpactAt p rows month - fuelImpactAt p rows month * 0.20))),
   some (round2 (fuelImpactAt p rows month + fuelImpactAt p rows month * 0.20))⟩

/-- One entry of the insufficient-data fuel breakdown: the flat fallback
impact and its cumulative multiple, with no confidence band. -/
noncomputable def fuelFallbackEntryAt (p : FuelParameters) (rows : List LogisticsRow)
    (month : ℕ) : FuelEntry :=
  let avg_cost : ℚ :=
    if historicalCosts rows = [] then 1000
    else (historicalCosts rows).sum / ((historicalCosts rows).length : ℚ)
  let monthly_impact : ℚ := avg_cost * (rows.length : ℚ)
    * (p.fuel_cost_ratio.getD 30 / 100) * (p.fuel_increase_percent.getD 10 / 100)
  ⟨"Month " ++ toString month, round2 ((monthly_impact : ℚ) : ℝ),
   round2 (((monthly_impact * (month : ℚ) : ℚ) : ℝ)), none, none⟩

/-- The `model_info` mapping (the demand variant omits the two
fuel-specific extras, hence the `Option` fields). -/
structure ModelInfo where
  trend_detected : Prop
  seasonality_detected : Prop
  confidence : ℤ
  data_points : ℕ
  trend_direction : Option String
  seasonal_variation : Option ℝ

/-- The `trend_direction` label of the fuel predictor. -/
def fuelTrendDirection (rows : List LogisticsRow) : String :=
  let avg_cost := calculateMean (historicalCosts rows)
  if (fuelTrend rows).r_squared > 0.3 then
    if (fuelTrend rows).slope > avg_cost * 0.01 then "rising"
    else if (fuelTrend rows).slope < -avg_cost * 0.01 then "falling"
    else "stable"
  else "stable"

/-- Result dictionary of `predict_fuel_price_with_ml` (numeric and
structural fields; the recommendation strings are non-normative and not
modelled).  Fields absent from the insufficient-data dictionary are
`Option`-valued. -/
structure FuelResult where
  scenario : String
  fuel_increase_percent : ℚ
  time_horizon_months : ℕ
  total_cost_impact : ℝ
  projected_cost_increase : ℝ
  current_monthly_cost : Option ℝ
  monthly_breakdown : List FuelEntry
  model_info : Option ModelInfo

/-- `predict_fuel_price_with_ml`. -/
noncomputable def predictFuelPriceWithML (parameters : FuelParameters)
    (logistics_data : List LogisticsRow) : FuelResult :=
  let fuel_increase_percent : ℚ := parameters.fuel_increase_percent.getD 10
  let time_horizon_months : ℕ := parameters.time_horizon_months.getD 12
  let fuel_cost_ratio : ℚ := parameters.fuel_cost_ratio.getD 30 / 100
  let historical_costs := historicalCosts logistics_data
  if historical_costs.length < 2 then
    let avg_cost : ℚ :=
      if historical_costs = [] then 1000
      else historical_costs.sum / (historical_costs.length : ℚ)
    let monthly_impact : ℚ := avg_cost * (logistics_data.length : ℚ)
      * fuel_cost_ratio * (fuel_increase_percent / 100)
    { scenario := "Fuel Price Increase (Insufficient Data for ML)"
      fuel_increase_percent := fuel_increase_percent
      time_horizon_months := time_horizon_months
      total_cost_impact := ((monthly_impact * (time_horizon_months : ℚ) : ℚ) : ℝ)
      projected_cost_increase := ((monthly_impact : ℚ) : ℝ)
      current_monthly_cost := none
      monthly_breakdown :=
        (List.range' 1 time_horizon_months).map (fuelFallbackEntryAt parameters logistics_data)
      model_info := none }
  else
    { scenario := "ML-Enhanced Fuel Price Prediction"
      fuel_increase_percent := fuel_increase_percent
      time_horizon_months := time_horizon_months
      total_cost_impact :=
        ((List.range' 1 time_horizon_months).map (fuelImpactAt parameters logistics_data)).sum
      projected_cost_increase := ((fuelBase parameters logistics_data : ℚ) : ℝ)
      current_monthly_cost :=
        some ((calculateMean historical_costs * (logistics_data.length : ℚ) : ℚ) : ℝ)
      monthly_breakdown :=
        (List.range' 1 time_horizon_months).map (fuelEntryAt parameters logistics_data)
      model_info := some
        { trend_detected := (fuelTrend logistics_data).r_squared > 0.3
          seasonality_detected := (fuelSeas logistics_data).has_seasonality
          confidence := intTrunc ((fuelTrend logistics_data).r_squared * 100)
          data_points := historical_costs.length
          trend_direction := some (fuelTrendDirection logistics_data)
          seasonal_variation := some (round1 ((fuelSeas logistics_data).variation * 100)) } }

/-- The `parameters` mapping of `predict_demand_with_ml`. -/
structure DemandParameters where
  demand_increase_percent : Option ℚ
  time_horizon_months : Option ℕ

/-- One row of `sales_data`. -/
structure SalesRow where
  revenue : Option ℚ

/-- The `historical_revenue` extraction: rows having a `revenue` field
contribute it when it is positive. -/
def historicalRevenue (rows : List SalesRow) : List ℚ :=
  rows.filterMap fun r =>
    match r.revenue with
    | some v => if 0 < v then some v else none
    | none => none

/-- The trend fitted on the extracted revenues. -/
def demandTrend (sales : List SalesRow) : TrendFit :=
  calculateTrend ((historicalRevenue sales).map some)

/-- The seasonality signal on the extracted revenues. -/
noncomputable def demandSeas (sales : List SalesRow) : SeasonalityResult :=
  detectSeasonality ((historicalRevenue sales).map some)

/-- `current_monthly_revenue = mean(revenues) * order_count`. -/
def demandCurrent (sales : List SalesRow) : ℚ :=
  calculateMean (historicalRevenue sales) * (sales.length : ℚ)

/-- `base_monthly_increase = current_monthly_revenue * (demand_increase_percent / 100)`. -/
def demandBaseInc (p : DemandParameters) (sales : List SalesRow) : ℚ :=
  demandCurrent sales * (p.demand_increase_percent.getD 15 / 100)

open scoped Classical in
/-- `projected_revenue` of month `month` in the demand predictor's loop:
an interpolated ramp `current + base * (month / horizon)`, plus a trend
adjustment when R² > 0.3, plus a sinusoidal seasonality adjustment when
seasonality is flagged. -/
noncomputable def demandProjectedAt (p : DemandParameters) (sales : List SalesRow)
    (month : ℕ) : ℝ :=
  let current : ℝ := (demandCurrent sales : ℚ)
  let start : ℝ := current + ((demandBaseInc p sales : ℚ) : ℝ)
    * ((month : ℝ) / ((p.time_horizon_months.getD 12 : ℕ) : ℝ))
  let afterTrend : ℝ :=
    if (demandTrend sales).r_squared > 0.3 then
      start + ((demandTrend sales).slope : ℝ) * month
    else start
  if (demandSeas sales).has_seasonality then
    afterTrend + afterTrend * (demandSeas sales).variation
      * Real.sin (2 * Real.pi * month / 12) * 0.3
  else afterTrend

/-- One entry of the demand `monthly_breakdown`. -/
structure DemandEntry where
  month : String
  current_revenue : ℝ
  projected_revenue : ℝ
  revenue_increase : ℝ

/-- The demand breakdown entry of month `month`. -/
noncomputable def demandEntryAt (p : DemandParameters) (sales : List SalesRow)
    (month : ℕ) : DemandEntry :=
  ⟨"Month " ++ toString month,
   round2 ((demandCurrent sales : ℚ) : ℝ),
   round2 (demandProjectedAt p sales month),
   round2 (demandProjectedAt p sales month - ((demandCurrent sales : ℚ) : ℝ))⟩

/-- Result dictionary of `predict_demand_with_ml` (numeric and structural
fields; the capacity-requirement strings are non-normative and not
modelled). -/
structure DemandResult where
  scenario : String
  demand_increase_percent : ℚ
  time_horizon_months : ℕ
  current_monthly_revenue : ℝ
  projected_monthly_revenue : Option ℝ
  projected_revenue_increase : ℝ
  total_revenue_increase : ℝ
  monthly_breakdown : List DemandEntry
  model_info : Option ModelInfo

/-- `predict_demand_with_ml`. -/
noncomputable def predictDemandWithML (parameters : DemandParameters)
    (sales_data : List SalesRow) : DemandResult :=
  let demand_increase_percent : ℚ := parameters.demand_increase_percent.getD 15
  let time_horizon_months : ℕ := parameters.time_horizon_months.getD 12
  let historical_revenue := historicalRevenue sales_data
  if historical_revenue.length < 2 then
    let avg_revenue : ℚ :=
      if historical_revenue = [] then 10000
      else historical_revenue.sum / (historical_revenue.length : ℚ)
    let monthly_increase : ℚ := avg_revenue * (sales_data.length : ℚ)
      * (demand_increase_percent / 100)
    { scenario := "Demand Forecast (Insufficient Data for ML)"
      demand_increase_percent := demand_increase_percent
      time_horizon_months := time_horizon_months
      current_monthly_revenue := ((avg_revenue * (sales_data.length : ℚ) : ℚ) : ℝ)
      projected_monthly_revenue := none
      projected_revenue_increase := ((monthly_increase : ℚ) : ℝ)
      total_revenue_increase := ((monthly_increase * (time_horizon_months : ℚ) : ℚ) : ℝ)
      monthly_breakdown := []
      model_info := none }
  else
    { scenario := "ML-Enhanced Demand Forecast"
      demand_increase_percent := demand_increase_percent
      time_horizon_months := time_horizon_months
      current_monthly_revenue := ((demandCurrent sales_data : ℚ) : ℝ)
      projected_monthly_revenue :=
        some ((demandCurrent sales_data + demandBaseInc parameters sales_data : ℚ) : ℝ)
      projected_revenue_increase := ((demandBaseInc parameters sales_data : ℚ) : ℝ)
      total_revenue_increase :=
        ((List.range' 1 time_horizon_months).map fun m =>
          demandProjectedAt parameters sales_data m - ((demandCurrent sales_data : ℚ) : ℝ)).sum
      monthly_breakdown :=
        (List.range' 1 time_horizon_months).map (demandEntryAt parameters sales_data)
      model_info := some
        { trend_detected := (demandTrend sales_data).r_squared > 0.3
          seasonality_detected := (demandSeas sales_data).has_seasonality
          confidence := intTrunc ((demandTrend sales_data).r_squared * 100)
          data_points := historical_revenue.length
          trend_direction := none
          seasonal_variation := none } }

lemma calculateMean_cons (a : ℚ) (l : List ℚ) :
    calculateMean (a :: l) = (a + l.sum) / ((l.length : ℚ) + 1) := by
  simp [calculateMean, List.sum_cons]

lemma roundHalfEven_intCast (n : ℤ) : roundHalfEven (n : ℝ) = n := by
  norm_num [roundHalfEven, Int.floor_intCast]

lemma floor_le_roundHalfEven (x : ℝ) : ⌊x⌋ ≤ roundHalfEven x := by
  unfold roundHalfEven; split_ifs <;> omega

lemma roundHalfEven_le_floor_add_one (x : ℝ) : roundHalfEven x ≤ ⌊x⌋ + 1 := by
  unfold roundHalfEven; split_ifs <;> omega

lemma roundHalfEven_mono {x y : ℝ} (h : x ≤ y) :
    roundHalfEven x ≤ roundHalfEven y := by
  rcases lt_or_le ⌊x⌋ ⌊y⌋ with hf | hf
  · calc roundHalfEven x ≤ ⌊x⌋ + 1 := roundHalfEven_le_floor_add_one x
      _ ≤ ⌊y⌋ := by omega
      _ ≤ roundHalfEven y := floor_le_roundHalfEven y
  · have hfe : ⌊x⌋ = ⌊y⌋ := le_antisymm (Int.floor_le_floor h) hf
    unfold roundHalfEven
    rw [hfe]
    split_ifs <;> first | omega | linarith | tauto

lemma roundHalfEven_nonneg {x : ℝ} (h : 0 ≤ x) : 0 ≤ roundHalfEven x :=
  le_trans (Int.floor_nonneg.mpr h) (floor_le_roundHalfEven x)

lemma round2_mono {x y : ℝ} (h : x ≤ y) : round2 x ≤ round2 y := by
  unfold round2
  have h1 := roundHalfEven_mono (mul_le_mul_of_nonneg_right h (by norm_num : (0:ℝ) ≤ 100))
  exact (div_le_div_right (by norm_num : (0:ℝ) < 100)).mpr (by exact_mod_cast h1)

lemma round2_nonneg {x : ℝ} (h : 0 ≤ x) : 0 ≤ round2 x := by
  unfold round2
  have h1 := roundHalfEven_nonneg (by positivity : (0:ℝ) ≤ x * 100)
  exact div_nonneg (by exact_mod_cast h1) (by norm_num)

lemma round2_eq_int (x : ℝ) (n : ℤ) (h : x * 100 = (n : ℝ)) :
    round2 x = (n : ℝ) / 100 := by
  unfold round2; rw [h, roundHalfEven_intCast]

lemma intTrunc_eq_floor {q : ℚ} (h : 0 ≤ q) : intTrunc q = ⌊q⌋ := by
  unfold intTrunc; rw [if_neg (not_lt.mpr h)]

lemma calculateTrend_r2_nonneg (ds : List PyFloat) :
    0 ≤ (calculateTrend ds).r_squared := by
  simp only [calculateTrend]
  split_ifs <;> first | norm_num | exact le_max_left 0 _

lemma sum_sub_sq (a : ℚ) (t : List ℚ) :
    (t.map fun x => (a - x) ^ 2).sum
      = (t.length : ℚ) * a ^ 2 - 2 * a * t.sum + (t.map fun x => x ^ 2).sum := by
  induction t with
  | nil => simp
  | cons b t ih =>
      simp only [List.map_cons, List.sum_cons, List.length_cons, ih]
      push_cast
      ring

lemma sq_list_sum_nonneg {α : Type} (f : α → ℚ) (t : List α) :
    0 ≤ (t.map fun x => (f x) ^ 2).sum := by
  apply List.sum_nonneg
  intro x hx
  obtain ⟨y, _, rfl⟩ := List.mem_map.mp hx
  positivity

lemma listD_cons (a : ℚ) (u : List ℚ) :
    ((a :: u).length : ℚ) * ((a :: u).map fun x => x ^ 2).sum - (a :: u).sum ^ 2
      = (u.map fun x => (a - x) ^ 2).sum
        + ((u.length : ℚ) * (u.map fun x => x ^ 2).sum - u.sum ^ 2) := by
  rw [sum_sub_sq]
  simp only [List.length_cons, List.map_cons, List.sum_cons]
  push_cast
  ring

lemma listD_nonneg (l : List ℚ) :
    0 ≤ (l.length : ℚ) * (l.map fun x => x ^ 2).sum - l.sum ^ 2 := by
  induction l with
  | nil => simp
  | cons a t ih =>
      rw [listD_cons]
      have h2 := sq_list_sum_nonneg (fun x => a - x) t
      linarith

lemma listD_pos (a b : ℚ) (t : List ℚ) (hab : a ≠ b) :
    0 < ((a :: b :: t).length : ℚ) * ((a :: b :: t).map fun x => x ^ 2).sum
        - (a :: b :: t).sum ^ 2 := by
  rw [listD_cons]
  have h2 := listD_nonneg (b :: t)
  have h3 : (a - b) ^ 2 ≤ ((b :: t).map fun x => (a - x) ^ 2).sum := by
    apply List.single_le_sum
    · intro x hx
      obtain ⟨y, _, rfl⟩ := List.mem_map.mp hx
      positivity
    · exact List.mem_map.mpr ⟨b, List.mem_cons_self b t, rfl⟩
  have hab' : a - b ≠ 0 := sub_ne_zero.mpr hab
  have h4 : 0 < (a - b) ^ 2 := by positivity
  linarith

lemma pairwise_filterMap_of {α β : Type} (f : α → Option β) {R : α → α → Prop}
    {S : β → β → Prop}
    (H : ∀ a b, R a b → ∀ x, f a = some x → ∀ y, f b = some y → S x y) :
    ∀ {l : List α}, l.Pairwise R → (l.filterMap f).Pairwise S := by
  intro l
  induction l with
  | nil => intro _; simp
  | cons a l ih =>
      intro h
      rw [List.pairwise_cons] at h
      rcases hfa : f a with _ | x
      · rw [List.filterMap_cons_none hfa]
        exact ih h.2
      · rw [List.filterMap_cons_some hfa]
        rw [List.pairwise_cons]
        refine ⟨?_, ih h.2⟩
        intro y hy
        obtain ⟨b, hb, hfb⟩ := List.mem_filterMap.mp hy
        exact H a b (h.1 b hb) x hfa y hfb

lemma zip_range_pairwise (ds : List PyFloat) :
    ((List.range ds.length).zip ds).Pairwise fun p q => p.1 < q.1 := by
  have h1 : List.Pairwise (· < ·) (((List.range ds.length).zip ds).map Prod.fst) := by
    rw [List.map_fst_zip _ _ (le_of_eq (List.length_range _))]
    exact List.pairwise_lt_range _
  exact List.pairwise_map.mp h1

lemma validPairs_pairwise (ds : List PyFloat) :
    (validPairs ds).Pairwise fun p q => p.1 < q.1 := by
  unfold validPairs
  refine pairwise_filterMap_of _ ?_ (zip_range_pairwise ds)
  rintro a b hlt x hx y hy
  obtain ⟨v, _, rfl⟩ := Option.map_eq_some'.mp hx
  obtain ⟨w, _, rfl⟩ := Option.map_eq_some'.mp hy
  exact hlt

lemma validPairs_length_le (ds : List PyFloat) :
    (validPairs ds).length ≤ ds.length := by
  unfold validPairs
  calc (((List.range ds.length).zip ds).filterMap _).length
      ≤ ((List.range ds.length).zip ds).length := List.length_filterMap_le _ _
    _ = ds.length := by rw [List.length_zip, List.length_range, min_self]

lemma validPairs_denominator_pos (ds : List PyFloat)
    (h : 2 ≤ (validPairs ds).length) :
    0 < ((validPairs ds).length : ℚ)
        * ((validPairs ds).map fun p => ((p.1 : ℚ)) ^ 2).sum
        - ((validPairs ds).map fun p => (p.1 : ℚ)).sum ^ 2 := by
  have hpair : ((validPairs ds).map fun p => (p.1 : ℚ)).Pairwise (· ≠ ·) := by
    apply List.Pairwise.map (fun p => (p.1 : ℚ)) ?_ (validPairs_pairwise ds)
    intro p q hpq
    show ((p.1 : ℚ)) ≠ ((q.1 : ℚ))
    exact_mod_cast ne_of_lt hpq
  have hx2 : ((validPairs ds).map fun p => (p.1 : ℚ)).map (fun x => x ^ 2)
      = (validPairs ds).map fun p => ((p.1 : ℚ)) ^ 2 := by
    rw [List.map_map]
    rfl
  have hlen : ((validPairs ds).map fun p => (p.1 : ℚ)).length = (validPairs ds).length :=
    List.length_map _ _
  rcases hl : (validPairs ds).map fun p => (p.1 : ℚ) with _ | ⟨a, l⟩
  · rw [hl] at hlen; simp at hlen; omega
  · rcases l with _ | ⟨b, t⟩
    · rw [hl] at hlen; simp at hlen; omega
    · rw [hl] at hpair hx2 hlen
      have hab : a ≠ b := (List.pairwise_cons.mp hpair).1 b (List.mem_cons_self b t)
      have := listD_pos a b t hab
      rw [← hlen, ← hx2]
      have hsum : ((validPairs ds).map fun p => (p.1 : ℚ)).sum = (a :: b :: t).sum := by
        rw [hl]
      rw [hsum]
      exact this

lemma list_range_map_sum (f : ℕ → ℚ) (n : ℕ) :
    ((List.range n).map f).sum = ∑ i ∈ Finset.range n, f i := by
  induction n with
  | zero => simp
  | succ n ih =>
      rw [List.range_succ, List.map_append, List.sum_append, Finset.sum_range_succ, ih]
      simp

lemma sum_range_cast (n : ℕ) :
    ∑ i ∈ Finset.range n, (i : ℚ) = n * (n - 1) / 2 := by
  induction n with
  | zero => simp
  | succ n ih =>
      rw [Finset.sum_range_succ, ih]
      push_cast
      ring

lemma sum_range_cast_sq (n : ℕ) :
    ∑ i ∈ Finset.range n, (i : ℚ) ^ 2 = n * (n - 1) * (2 * n - 1) / 6 := by
  induction n with
  | zero => simp
  | succ n ih =>
      rw [Finset.sum_range_succ, ih]
      push_cast
      ring

lemma zip_self {α : Type} (l : List α) : l.zip l = l.map fun a => (a, a) := by
  induction l with
  | nil => rfl
  | cons a t ih => simp [ih]

lemma validPairs_map_some_aux (l : List ℚ) (r : List ℕ) (h : r.length = l.length) :
    (r.zip (l.map some)).filterMap (fun p => p.2.map fun v => (p.1, v)) = r.zip l := by
  induction l generalizing r with
  | nil => simp
  | cons a t ih =>
      cases r with
      | nil => simp
      | cons i r =>
          simp only [List.map_cons, List.zip_cons_cons, List.filterMap_cons, Option.map_some']
          rw [ih r (by simpa using h)]

lemma validPairs_map_some (l : List ℚ) :
    validPairs (l.map some) = (List.range l.length).zip l := by
  unfold validPairs
  rw [List.length_map]
  exact validPairs_map_some_aux l (List.range l.length) (List.length_range _)

lemma validPairs_range_map (g : ℕ → ℚ) (n : ℕ) :
    validPairs ((List.range n).map fun i => some (g i))
      = (List.range n).map fun i => (i, g i) := by
  have h1 : (List.range n).map (fun i => some (g i)) = ((List.range n).map g).map some := by
    rw [List.map_map]
    rfl
  rw [h1, validPairs_map_some, List.length_map, List.length_range,
    List.zip_map_right, zip_self, List.map_map]
  rfl

lemma trend_linear (n : ℕ) (hn : 2 ≤ n) (a b : ℚ) :
    calculateTrend ((List.range n).map fun i => some (a * ↑i + b))
      = ⟨a, some b, if a = 0 then 0 else 1⟩ := by
  have hvp := validPairs_range_map (fun i => a * ↑i + b) n
  have hq2 : (2:ℚ) ≤ (n:ℚ) := by exact_mod_cast hn
  have hn0 : (n:ℚ) ≠ 0 := by linarith
  have hlds : ((List.range n).map fun i => some (a * ↑i + b)).length = n := by
    rw [List.length_map, List.length_range]
  have hlvp : (validPairs ((List.range n).map fun i => some (a * ↑i + b))).length = n := by
    rw [hvp, List.length_map, List.length_range]
  have hS1 := sum_range_cast n
  have hS2 := sum_range_cast_sq n
  have hSy : ∑ x ∈ Finset.range n, (a * ↑x + b)
      = a * ((n:ℚ) * ((n:ℚ) - 1) / 2) + (n:ℚ) * b := by
    rw [Finset.sum_add_distrib, ← Finset.mul_sum, hS1, Finset.sum_const, Finset.card_range,
      nsmul_eq_mul]
  have hSxy : ∑ x ∈ Finset.range n, (↑x * (a * ↑x + b))
      = a * ((n:ℚ) * ((n:ℚ) - 1) * (2 * (n:ℚ) - 1) / 6) + b * ((n:ℚ) * ((n:ℚ) - 1) / 2) := by
    have e : (∑ x ∈ Finset.range n, (↑x * (a * ↑x + b)))
        = ∑ x ∈ Finset.range n, (a * (↑x:ℚ) ^ 2 + b * ↑x) :=
      Finset.sum_congr rfl fun x _ => by ring
    rw [e, Finset.sum_add_distrib, ← Finset.mul_sum, ← Finset.mul_sum, hS1, hS2]
  have hmean : calculateMean (List.map (fun x => a * ↑x + b) (List.range n))
      = a * ((n:ℚ) - 1) / 2 + b := by
    rw [calculateMean]
    rw [if_neg (by simp only [List.map_eq_nil_iff, List.range_eq_nil]; omega)]
    rw [list_range_map_sum, List.length_map, List.length_range, hSy]
    field_simp
    ring
  have hsstot : ∑ x ∈ Finset.range n, (a * ↑x + b - (a * ((n:ℚ) - 1) / 2 + b)) ^ 2
      = a ^ 2 * ((n:ℚ) * ((n:ℚ) - 1) * ((n:ℚ) + 1) / 12) := by
    have e : (∑ x ∈ Finset.range n, (a * ↑x + b - (a * ((n:ℚ) - 1) / 2 + b)) ^ 2)
        = ∑ x ∈ Finset.range n,
            (a ^ 2 * (↑x:ℚ) ^ 2 + (-(a ^ 2 * ((n:ℚ) - 1))) * ↑x + (a * ((n:ℚ) - 1) / 2) ^ 2) :=
      Finset.sum_congr rfl fun x _ => by ring
    rw [e, Finset.sum_add_distrib, Finset.sum_add_distrib, ← Finset.mul_sum, ← Finset.mul_sum,
      hS1, hS2, Finset.sum_const, Finset.card_range, nsmul_eq_mul]
    ring
  simp only [calculateTrend]
  rw [if_neg (by rw [hlds]; omega :
    ¬ ((List.range n).map fun i => some (a * ↑i + b)).length < 2)]
  rw [if_neg (by rw [hlvp]; omega :
    ¬ (validPairs ((List.range n).map fun i => some (a * ↑i + b))).length < 2)]
  rw [hvp]
  simp only [List.map_map, List.length_map, List.length_range, Function.comp_def,
    list_range_map_sum]
  rw [hmean, hSxy, hSy, hS1, hS2, hsstot]
  set D : ℚ := ↑n * (↑n * (↑n - 1) * (2 * ↑n - 1) / 6) - (↑n * (↑n - 1) / 2) ^ 2 with hDdef
  have hD : D = (↑n:ℚ) ^ 2 * ((↑n:ℚ) - 1) * ((↑n:ℚ) + 1) / 12 := by rw [hDdef]; ring
  have hfac : (0:ℚ) < (↑n:ℚ) * ((↑n:ℚ) - 1) * ((↑n:ℚ) + 1) / 12 := by
    have h1 : (0:ℚ) < (n:ℚ) := by linarith
    have h2 : (0:ℚ) < (n:ℚ) - 1 := by linarith
    have h3 : (0:ℚ) < (n:ℚ) + 1 := by linarith
    exact div_pos (mul_pos (mul_pos h1 h2) h3) (by norm_num)
  have hDpos : 0 < D := by
    rw [hD]
    have h1 : (0:ℚ) < (n:ℚ) := by linarith
    have h2 : (0:ℚ) < (n:ℚ) - 1 := by linarith
    have h3 : (0:ℚ) < (n:ℚ) + 1 := by linarith
    exact div_pos (mul_pos (mul_pos (pow_pos h1 2) h2) h3) (by norm_num)
  rw [if_neg hDpos.ne']
  set M : ℚ := (↑n * (a * (↑n * (↑n - 1) * (2 * ↑n - 1) / 6) + b * (↑n * (↑n - 1) / 2)) -
      ↑n * (↑n - 1) / 2 * (a * (↑n * (↑n - 1) / 2) + ↑n * b)) / D with hMdef
  have hM : M = a := by
    rw [hMdef, div_eq_iff hDpos.ne', hD]
    ring
  rw [hM]
  set B : ℚ := (a * (↑n * (↑n - 1) / 2) + ↑n * b - a * (↑n * (↑n - 1) / 2)) / ↑n with hBdef
  have hB : B = b := by
    rw [hBdef]
    field_simp
  rw [hB]
  have hres : (∑ x ∈ Finset.range n, (a * ↑x + b - (a * ↑x + b)) ^ 2) = 0 := by simp
  rw [hres]
  simp only [TrendFit.mk.injEq]
  refine ⟨trivial, trivial, ?_⟩
  rcases eq_or_ne a 0 with ha | ha
  · subst ha
    norm_num
  · rw [if_neg ha]
    have h2 : 0 < a ^ 2 := lt_of_le_of_ne (sq_nonneg a) (Ne.symm (pow_ne_zero 2 ha))
    rw [if_pos (mul_pos h2 hfac)]
    norm_num

lemma fuel_breakdown_modeled (p : FuelParameters) (rows : List LogisticsRow)
    (h2 : 2 ≤ (historicalCosts rows).length) :
    (predictFuelPriceWithML p rows).monthly_breakdown
      = (List.range' 1 (p.time_horizon_months.getD 12)).map (fuelEntryAt p rows) := by
  simp only [predictFuelPriceWithML]
  rw [if_neg (by omega)]

lemma fuel_breakdown_fallback (p : FuelParameters) (rows : List LogisticsRow)
    (h : (historicalCosts rows).length < 2) :
    (predictFuelPriceWithML p rows).monthly_breakdown
      = (List.range' 1 (p.time_horizon_months.getD 12)).map (fuelFallbackEntryAt p rows) := by
  simp only [predictFuelPriceWithML]
  rw [if_pos h]

lemma demand_breakdown_modeled (p : DemandParameters) (sales : List SalesRow)
    (h2 : 2 ≤ (historicalRevenue sales).length) :
    (predictDemandWithML p sales).monthly_breakdown
      = (List.range' 1 (p.time_horizon_months.getD 12)).map (demandEntryAt p sales) := by
  simp only [predictDemandWithML]
  rw [if_neg (by omega)]

/-- Claim C1: for every input series with at least two valid (finite)
values, `_calculate_trend` returns slope `m = (n·Sxy − Sx·Sy) / D` and
intercept `b = (Sy − m·Sx) / n` with `D = n·Sxx − Sx²` over the points
`(i, yᵢ)` kept after discarding non-finite values, and returns
`R² = 1 − SSres/SStotal` (0 when `SStotal = 0`) clamped to `[0, 1]`. -/
theorem c1_trend_least_squares (ds : List PyFloat)
    (h : 2 ≤ (validPairs ds).length) :
    calculateTrend ds =
      (let vp := validPairs ds
       let n : ℚ := vp.length
       let Sx : ℚ := (vp.map fun p => (p.1 : ℚ)).sum
       let Sy : ℚ := (vp.map Prod.snd).sum
       let Sxy : ℚ := (vp.map fun p => (p.1 : ℚ) * p.2).sum
       let Sxx : ℚ := (vp.map fun p => ((p.1 : ℚ)) ^ 2).sum
       let m : ℚ := (n * Sxy - Sx * Sy) / (n * Sxx - Sx ^ 2)
       let b : ℚ := (Sy - m * Sx) / n
       let ybar : ℚ := Sy / n
       let sstot : ℚ := (vp.map fun p => (p.2 - ybar) ^ 2).sum
       let ssres : ℚ := (vp.map fun p => (p.2 - (m * (p.1 : ℚ) + b)) ^ 2).sum
       ⟨m, some b, max 0 (min 1 (if sstot = 0 then 0 else 1 - ssres / sstot))⟩) := by
  have hD := validPairs_denominator_pos ds h
  have hle := validPairs_length_le ds
  have hne : validPairs ds ≠ [] := by
    intro e
    rw [e] at h
    simp at h
  have hmean : calculateMean ((validPairs ds).map Prod.snd)
      = ((validPairs ds).map Prod.snd).sum / ((validPairs ds).length : ℚ) := by
    rw [calculateMean, if_neg (by simpa [List.map_eq_nil_iff] using hne), List.length_map]
  simp only [calculateTrend]
  rw [if_neg (by omega : ¬ ds.length < 2)]
  rw [if_neg (by omega : ¬ (validPairs ds).length < 2)]
  rw [if_neg hD.ne']
  rw [hmean]
  simp only [TrendFit.mk.injEq]
  refine ⟨trivial, trivial, ?_⟩
  have hnn : 0 ≤ ((validPairs ds).map fun p =>
      (p.2 - ((validPairs ds).map Prod.snd).sum / ((validPairs ds).length : ℚ)) ^ 2).sum := by
    apply List.sum_nonneg
    intro x hx
    obtain ⟨p, _, rfl⟩ := List.mem_map.mp hx
    positivity
  rcases eq_or_lt_of_le hnn with he | hlt
  · rw [if_neg (by rw [← he]; exact lt_irrefl 0), if_pos he.symm]
  · rw [if_pos hlt, if_neg hlt.ne']

/-- Witness for C1 at the series `[1, NaN, 2, 4]`: three valid points
`(0,1), (2,2), (3,4)` give slope 13/14, intercept 11/14, R² 169/196. -/
theorem c1_witness :
    2 ≤ (validPairs [some 1, none, some 2, some 4]).length ∧
    calculateTrend [some 1, none, some 2, some 4]
      = ⟨13 / 14, some (11 / 14), 169 / 196⟩ := by
  have hh : 2 ≤ (validPairs [some 1, none, some 2, some 4]).length := by
    norm_num [validPairs, List.filterMap_cons, show List.range 4 = [0, 1, 2, 3] from by decide]
  refine ⟨hh, ?_⟩
  rw [c1_trend_least_squares [some 1, none, some 2, some 4] hh]
  norm_num [validPairs, List.filterMap_cons, max_def, min_def,
    show List.range 4 = [0, 1, 2, 3] from by decide]

/-- Claim C2: Trend Fit recovers exact fits.  A constant series of length
`n ≥ 2` yields slope 0, intercept the constant and R² = 0 (because
SStotal = 0); a strictly linear series `yᵢ = a·i + b` with `a ≠ 0` yields
slope `a`, intercept `b` and R² = 1 — exactly, since the model works in
exact rational arithmetic. -/
theorem c2_exact_fits :
    (∀ (n : ℕ) (c : ℚ), 2 ≤ n →
        calculateTrend (List.replicate n (some c)) = ⟨0, some c, 0⟩) ∧
    (∀ (n : ℕ) (a b : ℚ), 2 ≤ n → a ≠ 0 →
        calculateTrend ((List.range n).map fun i => some (a * ↑i + b)) = ⟨a, some b, 1⟩) := by
  constructor
  · intro n c hn
    have h1 : List.replicate n (some c) = (List.range n).map fun i => some ((0:ℚ) * ↑i + c) := by
      have h2 : (fun i : ℕ => some ((0:ℚ) * ↑i + c)) = fun _ : ℕ => some c := by
        funext i
        norm_num
      rw [h2, List.map_const', List.length_range]
    rw [h1, trend_linear n hn 0 c]
    norm_num
  · intro n a b hn ha
    rw [trend_linear n hn a b, if_neg ha]

/-- Witness for C2: the constant series `[5, 5, 5]` and the linear series
`[7, 9, 11]` (slope 2, intercept 7). -/
theorem c2_witness :
    (2 ≤ 3 ∧ calculateTrend (List.replicate 3 (some (5:ℚ))) = ⟨0, some 5, 0⟩) ∧
    ((2:ℚ) ≠ 0 ∧
      calculateTrend ((List.range 3).map fun i => some ((2:ℚ) * ↑i + 7)) = ⟨2, some 7, 1⟩) :=
  ⟨⟨by norm_num, c2_exact_fits.1 3 5 (by norm_num)⟩,
   ⟨by norm_num, c2_exact_fits.2 3 2 7 (by norm_num) (by norm_num)⟩⟩

/-- Claim C3: for every Observation Series (non-negative values, per the
spec's data model) with at least three valid finite values and nonzero
mean, `_detect_seasonality` returns `variation = std/mean ≥ 0` with the
Bessel-corrected standard deviation, `has_seasonality` holds iff
`variation > 0.15`, and `factor = 1 + variation × 0.5`. -/
theorem c3_seasonality_signal (ds : List PyFloat)
    (hlen : 3 ≤ (ds.filterMap id).length)
    (hnn : ∀ v ∈ ds.filterMap id, 0 ≤ v)
    (hm : calculateMean (ds.filterMap id) ≠ 0) :
    (let data := ds.filterMap id
     let mu := calculateMean data
     let v : ℝ := Real.sqrt ((((data.map fun x => (x - mu) ^ 2).sum
        / ((data.length : ℚ) - 1) : ℚ) : ℝ)) / ((mu : ℚ) : ℝ)
     detectSeasonality ds = ⟨v > 0.15, v, 1 + v * 0.5⟩ ∧ 0 ≤ v) := by
  have hds3 : ¬ ds.length < 3 := by
    have := List.length_filterMap_le id ds
    omega
  have hf3 : ¬ (ds.filterMap id).length < 3 := by omega
  have hsum : 0 ≤ (ds.filterMap id).sum := List.sum_nonneg hnn
  have hmean_nonneg : 0 ≤ calculateMean (ds.filterMap id) := by
    rw [calculateMean]
    split_ifs
    · exact le_refl 0
    · exact div_nonneg hsum (by positivity)
  have hpos : 0 < calculateMean (ds.filterMap id) :=
    lt_of_le_of_ne hmean_nonneg (Ne.symm hm)
  constructor
  · simp only [detectSeasonality, if_neg hds3, if_neg hf3, if_neg hm]
    rw [calculateStd, if_neg (by omega : ¬ (ds.filterMap id).length < 2)]
  · exact div_nonneg (Real.sqrt_nonneg _) (by exact_mod_cast hpos.le)

/-- Witness for C3 at the series `[1, 2, 3]` (mean 2, all values valid
and non-negative). -/
theorem c3_witness :
    (3 ≤ (List.filterMap id [some (1:ℚ), some 2, some 3]).length) ∧
    calculateMean (List.filterMap id [some (1:ℚ), some 2, some 3]) ≠ 0 ∧
    (let data := List.filterMap id ([some 1, some 2, some 3] : List PyFloat)
     let mu := calculateMean data
     let v : ℝ := Real.sqrt ((((data.map fun x => (x - mu) ^ 2).sum
        / ((data.length : ℚ) - 1) : ℚ) : ℝ)) / ((mu : ℚ) : ℝ)
     detectSeasonality [some 1, some 2, some 3] = ⟨v > 0.15, v, 1 + v * 0.5⟩ ∧ 0 ≤ v) := by
  have hfm : List.filterMap id [some (1:ℚ), some 2, some 3] = [1, 2, 3] := by
    norm_num [List.filterMap_cons]
  have h1 : 3 ≤ (List.filterMap id [some (1:ℚ), some 2, some 3]).length := by
    rw [hfm]
    norm_num
  have h2 : ∀ v ∈ List.filterMap id [some (1:ℚ), some 2, some 3], 0 ≤ v := by
    rw [hfm]
    intro v hv
    simp only [List.mem_cons, List.not_mem_nil, or_false] at hv
    rcases hv with rfl | rfl | rfl <;> norm_num
  have h3 : calculateMean (List.filterMap id [some (1:ℚ), some 2, some 3]) ≠ 0 := by
    rw [hfm]
    norm_num [calculateMean_cons]
  exact ⟨h1, h3, c3_seasonality_signal [some 1, some 2, some 3] h1 h2 h3⟩

/-- Counterexample for C4 as stated: the demand variant's
insufficient-data fallback returns an *empty* `monthly_breakdown`, not
one entry per month of the 12-month default horizon. -/
theorem c4_counterexample :
    (predictDemandWithML ⟨none, none⟩ []).monthly_breakdown = [] ∧
    (predictDemandWithML ⟨none, none⟩ []).time_horizon_months = 12 := by
  constructor
  · rfl
  · rfl

/-- Claim C4 (amended): the fuel variant's breakdown — in both the
modeled and the insufficient-data branch — has exactly
`time_horizon_months` entries labelled `Month t`, `t = 1..horizon`, as
does the demand variant's modeled branch; the demand variant's
insufficient-data fallback instead returns an empty breakdown. -/
theorem c4_breakdown_labels_amended :
    (∀ (p : FuelParameters) (rows : List LogisticsRow),
        (predictFuelPriceWithML p rows).monthly_breakdown.map (fun e => e.month)
          = (List.range' 1 (p.time_horizon_months.getD 12)).map
              (fun t => "Month " ++ toString t)) ∧
    (∀ (p : DemandParameters) (sales : List SalesRow),
        2 ≤ (historicalRevenue sales).length →
        (predictDemandWithML p sales).monthly_breakdown.map (fun e => e.month)
          = (List.range' 1 (p.time_horizon_months.getD 12)).map
              (fun t => "Month " ++ toString t)) ∧
    (∀ (p : DemandParameters) (sales : List SalesRow),
        (historicalRevenue sales).length < 2 →
        (predictDemandWithML p sales).monthly_breakdown = []) := by
  refine ⟨?_, ?_, ?_⟩
  · intro p rows
    by_cases h : (historicalCosts rows).length < 2
    · rw [fuel_breakdown_fallback p rows h, List.map_map]
      rfl
    · rw [fuel_breakdown_modeled p rows (by omega), List.map_map]
      rfl
  · intro p sales h2
    rw [demand_breakdown_modeled p sales h2, List.map_map]
    rfl
  · intro p sales h2
    simp only [predictDemandWithML]
    rw [if_pos (by omega)]

/-- Witness for C4 (amended) on the demand variant: a two-revenue input
takes the modeled branch, a one-revenue input takes the fallback. -/
theorem c4_witness :
    (2 ≤ (historicalRevenue [⟨some 5⟩, ⟨some 6⟩]).length ∧
      (predictDemandWithML ⟨none, none⟩ [⟨some 5⟩, ⟨some 6⟩]).monthly_breakdown.map
          (fun e => e.month)
        = (List.range' 1 ((⟨none, none⟩ : DemandParameters).time_horizon_months.getD 12)).map
            (fun t => "Month " ++ toString t)) ∧
    ((historicalRevenue [⟨some 5⟩]).length < 2 ∧
      (predictDemandWithML ⟨none, none⟩ [⟨some 5⟩]).monthly_breakdown = []) := by
  have ha : 2 ≤ (historicalRevenue [⟨some 5⟩, ⟨some 6⟩]).length := by
    norm_num [historicalRevenue, List.filterMap_cons]
  have hb : (historicalRevenue [⟨some 5⟩]).length < 2 := by
    norm_num [historicalRevenue, List.filterMap_cons]
  exact ⟨⟨ha, c4_breakdown_labels_amended.2.1 _ _ ha⟩,
    ⟨hb, c4_breakdown_labels_amended.2.2 _ _ hb⟩⟩

/-- Counterexample for C5 as stated: with costs `[1000, 10]` the fitted
slope is −990 and R² = 1, so month 2's predicted impact is negative
(−29.1); its pessimistic bound −34.92 is then *below* the value, breaking
`pessimistic ≥ value`. -/
theorem c5_counterexample :
    ((predictFuelPriceWithML ⟨none, none, none⟩
        [⟨some 1, some 1000⟩, ⟨some 1, some 10⟩]).monthly_breakdown[1]?).map
        (fun e => (e.monthly_cost_increase, e.pessimistic_scenario))
      = some ((-29.1 : ℝ), some (-34.92 : ℝ)) ∧ ((-34.92 : ℝ) < -29.1) := by
  have hc : historicalCosts [⟨some 1, some 1000⟩, ⟨some 1, some 10⟩] = [1000, 10] := by
    norm_num [historicalCosts, List.filterMap_cons]
  have ht : fuelTrend [⟨some 1, some 1000⟩, ⟨some 1, some 10⟩] = ⟨-990, some 1000, 1⟩ := by
    rw [fuelTrend, hc]
    norm_num [calculateTrend, validPairs, calculateMean_cons, max_def, min_def,
      List.filterMap_cons, show List.range 2 = [0, 1] from by decide]
  have hs : fuelSeas [⟨some 1, some 1000⟩, ⟨some 1, some 10⟩] = ⟨False, 0, 1⟩ := by
    rw [fuelSeas, hc]
    rfl
  have hb : fuelBase ⟨none, none, none⟩ [⟨some 1, some 1000⟩, ⟨some 1, some 10⟩]
      = 303 / 10 := by
    rw [fuelBase, hc]
    norm_num [calculateMean_cons]
  have hi2 : fuelImpactAt ⟨none, none, none⟩ [⟨some 1, some 1000⟩, ⟨some 1, some 10⟩] 2
      = (-29.1 : ℝ) := by
    simp only [fuelImpactAt]
    rw [ht, hs, hb]
    norm_num
  constructor
  · rw [fuel_breakdown_modeled _ _ (by rw [hc]; norm_num)]
    rw [List.getElem?_map, show (List.range' 1
      ((⟨none, none, none⟩ : FuelParameters).time_horizon_months.getD 12))[1]? = some 2 from rfl]
    simp only [Option.map_some', fuelEntryAt]
    rw [hi2]
    simp only [Prod.mk.injEq, Option.some.injEq]
    constructor
    · rw [round2_eq_int (-29.1) (-2910) (by norm_num)]
      norm_num
    · rw [round2_eq_int ((-29.1) + (-29.1) * 0.20) (-3492) (by norm_num)]
      norm_num
  · norm_num

/-- Claim C5 (amended): in every modeled fuel result the breakdown is the
month-indexed map of `fuelEntryAt`, and every entry whose *pre-rounding*
predicted impact is non-negative satisfies
`pessimistic ≥ value ≥ optimistic ≥ 0` after rounding (rounding is
monotone); entries with negative predicted impact can violate the chain,
as the counterexample shows. -/
theorem c5_band_amended (p : FuelParameters) (rows : List LogisticsRow) (m : ℕ)
    (h2 : 2 ≤ (historicalCosts rows).length)
    (hpos : 0 ≤ fuelImpactAt p rows m) :
    (predictFuelPriceWithML p rows).monthly_breakdown
      = (List.range' 1 (p.time_horizon_months.getD 12)).map (fuelEntryAt p rows) ∧
    0 ≤ (fuelEntryAt p rows m).optimistic_scenario.getD 0 ∧
    (fuelEntryAt p rows m).optimistic_scenario.getD 0
      ≤ (fuelEntryAt p rows m).monthly_cost_increase ∧
    (fuelEntryAt p rows m).monthly_cost_increase
      ≤ (fuelEntryAt p rows m).pessimistic_scenario.getD 0 := by
  refine ⟨fuel_breakdown_modeled p rows h2, ?_, ?_, ?_⟩
  · simp only [fuelEntryAt, Option.getD_some]
    exact round2_nonneg (le_max_left 0 _)
  · simp only [fuelEntryAt, Option.getD_some]
    exact round2_mono (max_le (by linarith) (by linarith))
  · simp only [fuelEntryAt, Option.getD_some]
    exact round2_mono (by linarith)

/-- Witness for C5 (amended) at costs `[100, 110]`, month 1: the
predicted impact 6.6 is non-negative and the band chain holds. -/
theorem c5_witness :
    2 ≤ (historicalCosts [⟨some 1, some 100⟩, ⟨some 1, some 110⟩]).length ∧
    0 ≤ fuelImpactAt ⟨none, none, none⟩ [⟨some 1, some 100⟩, ⟨some 1, some 110⟩] 1 ∧
    ((predictFuelPriceWithML ⟨none, none, none⟩
        [⟨some 1, some 100⟩, ⟨some 1, some 110⟩]).monthly_breakdown
      = (List.range' 1 ((⟨none, none, none⟩ : FuelParameters).time_horizon_months.getD 12)).map
          (fuelEntryAt ⟨none, none, none⟩ [⟨some 1, some 100⟩, ⟨some 1, some 110⟩]) ∧
    0 ≤ (fuelEntryAt ⟨none, none, none⟩
        [⟨some 1, some 100⟩, ⟨some 1, some 110⟩] 1).optimistic_scenario.getD 0 ∧
    (fuelEntryAt ⟨none, none, none⟩
        [⟨some 1, some 100⟩, ⟨some 1, some 110⟩] 1).optimistic_scenario.getD 0
      ≤ (fuelEntryAt ⟨none, none, none⟩
          [⟨some 1, some 100⟩, ⟨some 1, some 110⟩] 1).monthly_cost_increase ∧
    (fuelEntryAt ⟨none, none, none⟩
        [⟨some 1, some 100⟩, ⟨some 1, some 110⟩] 1).monthly_cost_increase
      ≤ (fuelEntryAt ⟨none, none, none⟩
          [⟨some 1, some 100⟩, ⟨some 1, some 110⟩] 1).pessimistic_scenario.getD 0) := by
  have hc : historicalCosts [⟨some 1, some 100⟩, ⟨some 1, some 110⟩] = [100, 110] := by
    norm_num [historicalCosts, List.filterMap_cons]
  have ht : fuelTrend [⟨some 1, some 100⟩, ⟨some 1, some 110⟩] = ⟨10, some 100, 1⟩ := by
    rw [fuelTrend, hc]
    norm_num [calculateTrend, validPairs, calculateMean_cons, max_def, min_def,
      List.filterMap_cons, show List.range 2 = [0, 1] from by decide]
  have hs : fuelSeas [⟨some 1, some 100⟩, ⟨some 1, some 110⟩] = ⟨False, 0, 1⟩ := by
    rw [fuelSeas, hc]
    rfl
  have hb : fuelBase ⟨none, none, none⟩ [⟨some 1, some 100⟩, ⟨some 1, some 110⟩]
      = 63 / 10 := by
    rw [fuelBase, hc]
    norm_num [calculateMean_cons]
  have h2 : 2 ≤ (historicalCosts [⟨some 1, some 100⟩, ⟨some 1, some 110⟩]).length := by
    rw [hc]
    norm_num
  have hpos : 0 ≤ fuelImpactAt ⟨none, none, none⟩
      [⟨some 1, some 100⟩, ⟨some 1, some 110⟩] 1 := by
    simp only [fuelImpactAt]
    rw [ht, hs, hb]
    norm_num
  exact ⟨h2, hpos, c5_band_amended ⟨none, none, none⟩
    [⟨some 1, some 100⟩, ⟨some 1, some 110⟩] 1 h2 hpos⟩

/-- Counterexample for C6 as stated: on the one-element series `[NaN]`
the code returns the raw first element as intercept — a non-finite value
— whereas the claim's reading "the single/first valid value (or 0 if
none)" would demand the finite value 0. -/
theorem c6_counterexample :
    calculateTrend [none] = ⟨0, none, 0⟩ ∧ (calculateTrend [none]).intercept ≠ some 0 := by
  constructor
  · rfl
  · simp [calculateTrend]

/-- Claim C6 (amended): neither estimator can fail on degenerate input
(totality is by construction), and the degenerate defaults are: for
Trend, slope 0 and R² 0, with intercept equal to the raw first element
(or 0 if empty) when the series has fewer than two elements — even if
that element is non-finite — and equal to the first *valid* value (or 0
if none) when the series has two or more elements but fewer than two
valid ones; for Seasonality with fewer than three valid values,
`has_seasonality = False`, variation 0, factor 1. -/
theorem c6_degenerate_defaults_amended :
    (∀ ds : List PyFloat, (validPairs ds).length < 2 →
        (calculateTrend ds).slope = 0 ∧ (calculateTrend ds).r_squared = 0 ∧
        (calculateTrend ds).intercept =
          (if ds.length < 2 then ds.headD (some 0)
           else some ((validPairs ds).headD (0, 0)).2)) ∧
    (∀ ds : List PyFloat, (ds.filterMap id).length < 3 →
        detectSeasonality ds = ⟨False, 0, 1⟩) := by
  constructor
  · intro ds hvp
    by_cases hlen : ds.length < 2
    · simp only [calculateTrend, if_pos hlen]
      exact ⟨trivial, trivial, trivial⟩
    · simp only [calculateTrend, if_neg hlen, if_pos hvp]
      exact ⟨trivial, trivial, trivial⟩
  · intro ds hf
    by_cases hlen : ds.length < 3
    · simp only [detectSeasonality, if_pos hlen]
    · have hfi : (ds.filterMap id).length < 3 := hf
      simp only [detectSeasonality, if_neg hlen, if_pos hfi]

/-- Witness for C6 (amended): the singleton `[5]` for Trend and the
two-element `[1, 2]` for Seasonality. -/
theorem c6_witness :
    ((validPairs [some (5:ℚ)]).length < 2 ∧
      (calculateTrend [some (5:ℚ)]).slope = 0 ∧
      (calculateTrend [some (5:ℚ)]).r_squared = 0 ∧
      (calculateTrend [some (5:ℚ)]).intercept =
        (if ([some (5:ℚ)] : List PyFloat).length < 2
         then ([some (5:ℚ)] : List PyFloat).headD (some 0)
         else some ((validPairs [some (5:ℚ)]).headD (0, 0)).2)) ∧
    ((List.filterMap id [some (1:ℚ), some 2]).length < 3 ∧
      detectSeasonality [some (1:ℚ), some 2] = ⟨False, 0, 1⟩) := by
  have h1 : (validPairs [some (5:ℚ)]).length < 2 := by
    norm_num [validPairs, List.filterMap_cons, show List.range 1 = [0] from by decide]
  have h2 : (List.filterMap id [some (1:ℚ), some 2]).length < 3 := by
    norm_num [List.filterMap_cons]
  exact ⟨⟨h1, c6_degenerate_defaults_amended.1 [some (5:ℚ)] h1⟩,
    ⟨h2, c6_degenerate_defaults_amended.2 [some (1:ℚ), some 2] h2⟩⟩

/-- Claim C7: on five records with derived costs `[100, 110, 120, 130,
140]` and parameters fuel_increase_percent = 10, time_horizon_months =
3, fuel_cost_ratio = 30, the fuel variant fits slope 10 with R² = 1,
reports base monthly impact 120 × 5 × 0.3 × 0.10 = 18.0, applies no
seasonality adjustment (variation √250/120 ≈ 0.13 is below 0.15), and
reports a Month-1 impact of 18.0 + 10 × 1 × 0.3 × 0.10 = 18.3. -/
theorem c7_concrete_example :
    (fuelTrend [⟨some 1, some 100⟩, ⟨some 1, some 110⟩, ⟨some 1, some 120⟩,
        ⟨some 1, some 130⟩, ⟨some 1, some 140⟩]).slope = 10 ∧
    (fuelTrend [⟨some 1, some 100⟩, ⟨some 1, some 110⟩, ⟨some 1, some 120⟩,
        ⟨some 1, some 130⟩, ⟨some 1, some 140⟩]).r_squared = 1 ∧
    (predictFuelPriceWithML ⟨some 10, some 3, some 30⟩
        [⟨some 1, some 100⟩, ⟨some 1, some 110⟩, ⟨some 1, some 120⟩,
         ⟨some 1, some 130⟩, ⟨some 1, some 140⟩]).projected_cost_increase = 18 ∧
    ¬ (fuelSeas [⟨some 1, some 100⟩, ⟨some 1, some 110⟩, ⟨some 1, some 120⟩,
        ⟨some 1, some 130⟩, ⟨some 1, some 140⟩]).has_seasonality ∧
    ((predictFuelPriceWithML ⟨some 10, some 3, some 30⟩
        [⟨some 1, some 100⟩, ⟨some 1, some 110⟩, ⟨some 1, some 120⟩,
         ⟨some 1, some 130⟩, ⟨some 1, some 140⟩]).monthly_breakdown[0]?).map
        (fun e => e.monthly_cost_increase) = some (18.3 : ℝ) := by
  have hc : historicalCosts [⟨some 1, some 100⟩, ⟨some 1, some 110⟩, ⟨some 1, some 120⟩,
      ⟨some 1, some 130⟩, ⟨some 1, some 140⟩] = [100, 110, 120, 130, 140] := by
    norm_num [historicalCosts, List.filterMap_cons]
  have ht : fuelTrend [⟨some 1, some 100⟩, ⟨some 1, some 110⟩, ⟨some 1, some 120⟩,
      ⟨some 1, some 130⟩, ⟨some 1, some 140⟩] = ⟨10, some 100, 1⟩ := by
    rw [fuelTrend, hc]
    norm_num [calculateTrend, validPairs, calculateMean_cons, max_def, min_def,
      List.filterMap_cons, show List.range 5 = [0, 1, 2, 3, 4] from by decide]
  have hfm : List.filterMap id (List.map some [(100:ℚ), 110, 120, 130, 140])
      = [100, 110, 120, 130, 140] := by
    norm_num [List.filterMap_cons]
  have hmean : calculateMean [(100:ℚ), 110, 120, 130, 140] = 120 := by
    norm_num [calculateMean_cons]
  have hseq : fuelSeas [⟨some 1, some 100⟩, ⟨some 1, some 110⟩, ⟨some 1, some 120⟩,
      ⟨some 1, some 130⟩, ⟨some 1, some 140⟩]
      = ⟨Real.sqrt 250 / 120 > 0.15, Real.sqrt 250 / 120,
         1 + Real.sqrt 250 / 120 * 0.5⟩ := by
    rw [fuelSeas, hc]
    simp only [detectSeasonality]
    rw [if_neg (by norm_num), hfm]
    rw [if_neg (by norm_num), hmean]
    rw [if_neg (by norm_num)]
    rw [calculateStd, if_neg (by norm_num), hmean]
    norm_num
  have hno : ¬ (fuelSeas [⟨some 1, some 100⟩, ⟨some 1, some 110⟩, ⟨some 1, some 120⟩,
      ⟨some 1, some 130⟩, ⟨some 1, some 140⟩]).has_seasonality := by
    rw [hseq]
    have h18 : Real.sqrt 250 ≤ 18 := by
      have h324 : Real.sqrt 324 = 18 := by
        rw [show (324:ℝ) = 18 ^ 2 by norm_num]
        exact Real.sqrt_sq (by norm_num)
      calc Real.sqrt 250 ≤ Real.sqrt 324 := Real.sqrt_le_sqrt (by norm_num)
        _ = 18 := h324
    simp only [not_lt, gt_iff_lt]
    rw [div_le_iff (by norm_num : (0:ℝ) < 120)]
    linarith
  have hb : fuelBase ⟨some 10, some 3, some 30⟩ [⟨some 1, some 100⟩, ⟨some 1, some 110⟩,
      ⟨some 1, some 120⟩, ⟨some 1, some 130⟩, ⟨some 1, some 140⟩] = 18 := by
    rw [fuelBase, hc]
    norm_num [calculateMean_cons]
  have hi1 : fuelImpactAt ⟨some 10, some 3, some 30⟩ [⟨some 1, some 100⟩, ⟨some 1, some 110⟩,
      ⟨some 1, some 120⟩, ⟨some 1, some 130⟩, ⟨some 1, some 140⟩] 1 = (18.3 : ℝ) := by
    simp only [fuelImpactAt]
    rw [ht, hb, if_neg hno]
    norm_num
  refine ⟨by rw [ht], by rw [ht], ?_, hno, ?_⟩
  · simp only [predictFuelPriceWithML]
    rw [if_neg (by rw [hc]; norm_num)]
    rw [hb]
    norm_num
  · rw [fuel_breakdown_modeled _ _ (by rw [hc]; norm_num)]
    rw [List.getElem?_map, show (List.range' 1
      ((⟨some 10, some 3, some 30⟩ : FuelParameters).time_horizon_months.getD 12))[0]?
      = some 1 from rfl]
    simp only [Option.map_some', fuelEntryAt]
    rw [hi1]
    rw [round2_eq_int (18.3) 1830 (by norm_num)]
    norm_num

/-- Claim C8: before the trend and seasonality adjustments the fuel
variant's period value is the flat base impact (independent of the
month) while the demand variant's is the interpolated ramp
`current + base × (t / horizon)`; with both adjustments disabled the
month values reduce to exactly these start values. -/
theorem c8_flat_vs_ramp :
    (∀ (p : FuelParameters) (rows : List LogisticsRow) (m : ℕ),
        ¬ (fuelTrend rows).r_squared > 0.3 → ¬ (fuelSeas rows).has_seasonality →
        fuelImpactAt p rows m = ((fuelBase p rows : ℚ) : ℝ)) ∧
    (∀ (p : DemandParameters) (sales : List SalesRow) (m : ℕ),
        ¬ (demandTrend sales).r_squared > 0.3 → ¬ (demandSeas sales).has_seasonality →
        demandProjectedAt p sales m = ((demandCurrent sales : ℚ) : ℝ)
          + ((demandBaseInc p sales : ℚ) : ℝ)
            * ((m : ℝ) / ((p.time_horizon_months.getD 12 : ℕ) : ℝ))) := by
  constructor
  · intro p rows m ht hs
    simp only [fuelImpactAt]
    rw [if_neg ht, if_neg hs]
  · intro p sales m ht hs
    simp only [demandProjectedAt]
    rw [if_neg ht, if_neg hs]

/-- Witness for C8 on constant inputs (`[5, 5]`; R² = 0, no
seasonality): fuel month 1 equals the flat base; demand month 4 equals
the ramp value. -/
theorem c8_witness :
    (¬ (fuelTrend [⟨some 1, some 5⟩, ⟨some 1, some 5⟩]).r_squared > 0.3 ∧
     ¬ (fuelSeas [⟨some 1, some 5⟩, ⟨some 1, some 5⟩]).has_seasonality ∧
     fuelImpactAt ⟨none, none, none⟩ [⟨some 1, some 5⟩, ⟨some 1, some 5⟩] 1
       = ((fuelBase ⟨none, none, none⟩ [⟨some 1, some 5⟩, ⟨some 1, some 5⟩] : ℚ) : ℝ)) ∧
    (¬ (demandTrend [⟨some 5⟩, ⟨some 5⟩]).r_squared > 0.3 ∧
     ¬ (demandSeas [⟨some 5⟩, ⟨some 5⟩]).has_seasonality ∧
     demandProjectedAt ⟨none, none⟩ [⟨some 5⟩, ⟨some 5⟩] 4
       = ((demandCurrent [⟨some 5⟩, ⟨some 5⟩] : ℚ) : ℝ)
         + ((demandBaseInc ⟨none, none⟩ [⟨some 5⟩, ⟨some 5⟩] : ℚ) : ℝ)
           * (((4:ℕ) : ℝ) / (((⟨none, none⟩ : DemandParameters).time_horizon_months.getD 12 : ℕ) : ℝ))) := by
  have hc : historicalCosts [⟨some 1, some 5⟩, ⟨some 1, some 5⟩] = [5, 5] := by
    norm_num [historicalCosts, List.filterMap_cons]
  have hr : historicalRevenue [⟨some 5⟩, ⟨some 5⟩] = [5, 5] := by
    norm_num [historicalRevenue, List.filterMap_cons]
  have ht : calculateTrend (List.map some [(5:ℚ), 5]) = ⟨0, some 5, 0⟩ := by
    norm_num [calculateTrend, validPairs, calculateMean_cons, max_def, min_def,
      List.filterMap_cons, show List.range 2 = [0, 1] from by decide]
  have h1 : ¬ (fuelTrend [⟨some 1, some 5⟩, ⟨some 1, some 5⟩]).r_squared > 0.3 := by
    rw [fuelTrend, hc, ht]
    norm_num
  have h2 : ¬ (fuelSeas [⟨some 1, some 5⟩, ⟨some 1, some 5⟩]).has_seasonality := by
    rw [show fuelSeas [⟨some 1, some 5⟩, ⟨some 1, some 5⟩] = ⟨False, 0, 1⟩ from by
      rw [fuelSeas, hc]
      rfl]
    exact not_false
  have h3 : ¬ (demandTrend [⟨some 5⟩, ⟨some 5⟩]).r_squared > 0.3 := by
    rw [demandTrend, hr, ht]
    norm_num
  have h4 : ¬ (demandSeas [⟨some 5⟩, ⟨some 5⟩]).has_seasonality := by
    rw [show demandSeas [⟨some 5⟩, ⟨some 5⟩] = ⟨False, 0, 1⟩ from by
      rw [demandSeas, hr]
      rfl]
    exact not_false
  exact ⟨⟨h1, h2, c8_flat_vs_ramp.1 ⟨none, none, none⟩ _ 1 h1 h2⟩,
    ⟨h3, h4, c8_flat_vs_ramp.2 ⟨none, none⟩ _ 4 h3 h4⟩⟩

/-- Counterexample for C9 as stated: with costs `[1, 2, 4, 6]` the fit
has R² = 289/295, so R² × 100 ≈ 97.97; Python's `int()` truncates it to
97 while rounding would give 98 — confidence is *not* R² × 100 rounded. -/
theorem c9_counterexample :
    (predictFuelPriceWithML ⟨none, none, none⟩
        [⟨some 1, some 1⟩, ⟨some 1, some 2⟩, ⟨some 1, some 4⟩,
         ⟨some 1, some 6⟩]).model_info.map (fun mi => mi.confidence) = some 97 ∧
    round ((fuelTrend [⟨some 1, some 1⟩, ⟨some 1, some 2⟩, ⟨some 1, some 4⟩,
        ⟨some 1, some 6⟩]).r_squared * 100) = (98 : ℤ) := by
  have hc : historicalCosts [⟨some 1, some 1⟩, ⟨some 1, some 2⟩, ⟨some 1, some 4⟩,
      ⟨some 1, some 6⟩] = [1, 2, 4, 6] := by
    norm_num [historicalCosts, List.filterMap_cons]
  have ht : fuelTrend [⟨some 1, some 1⟩, ⟨some 1, some 2⟩, ⟨some 1, some 4⟩,
      ⟨some 1, some 6⟩] = ⟨17 / 10, some (7 / 10), 289 / 295⟩ := by
    rw [fuelTrend, hc]
    norm_num [calculateTrend, validPairs, calculateMean_cons, max_def, min_def,
      List.filterMap_cons, show List.range 4 = [0, 1, 2, 3] from by decide]
  constructor
  · simp only [predictFuelPriceWithML]
    rw [if_neg (by rw [hc]; norm_num)]
    simp only [Option.map_some']
    rw [show fuelTrend [⟨some 1, some 1⟩, ⟨some 1, some 2⟩, ⟨some 1, some 4⟩,
      ⟨some 1, some 6⟩] = ⟨17 / 10, some (7 / 10), 289 / 295⟩ from ht]
    norm_num [intTrunc]
  · rw [ht]
    norm_num [round_eq]

/-- Claim C9 (amended): in every modeled result of either variant the
`confidence` field equals R² × 100 truncated toward zero — equivalently
`⌊R² × 100⌋`, since R² is clamped non-negative — not rounded to nearest. -/
theorem c9_confidence_amended :
    (∀ (p : FuelParameters) (rows : List LogisticsRow),
        2 ≤ (historicalCosts rows).length →
        (predictFuelPriceWithML p rows).model_info.map (fun mi => mi.confidence)
          = some ⌊(fuelTrend rows).r_squared * 100⌋) ∧
    (∀ (p : DemandParameters) (sales : List SalesRow),
        2 ≤ (historicalRevenue sales).length →
        (predictDemandWithML p sales).model_info.map (fun mi => mi.confidence)
          = some ⌊(demandTrend sales).r_squared * 100⌋) := by
  constructor
  · intro p rows h2
    simp only [predictFuelPriceWithML]
    rw [if_neg (by omega)]
    simp only [Option.map_some', fuelTrend]
    rw [intTrunc_eq_floor (mul_nonneg (calculateTrend_r2_nonneg _) (by norm_num))]
  · intro p sales h2
    simp only [predictDemandWithML]
    rw [if_neg (by omega)]
    simp only [Option.map_some', demandTrend]
    rw [intTrunc_eq_floor (mul_nonneg (calculateTrend_r2_nonneg _) (by norm_num))]

/-- Witness for C9 (amended) on two-point inputs for both variants. -/
theorem c9_witness :
    2 ≤ (historicalCosts [⟨some 1, some 100⟩, ⟨some 1, some 120⟩]).length ∧
    2 ≤ (historicalRevenue [⟨some 7⟩, ⟨some 9⟩]).length ∧
    (predictFuelPriceWithML ⟨none, none, none⟩
        [⟨some 1, some 100⟩, ⟨some 1, some 120⟩]).model_info.map (fun mi => mi.confidence)
      = some ⌊(fuelTrend [⟨some 1, some 100⟩, ⟨some 1, some 120⟩]).r_squared * 100⌋ ∧
    (predictDemandWithML ⟨none, none⟩ [⟨some 7⟩, ⟨some 9⟩]).model_info.map
        (fun mi => mi.confidence)
      = some ⌊(demandTrend [⟨some 7⟩, ⟨some 9⟩]).r_squared * 100⌋ := by
  have h1 : 2 ≤ (historicalCosts [⟨some 1, some 100⟩, ⟨some 1, some 120⟩]).length := by
    norm_num [historicalCosts, List.filterMap_cons]
  have h2 : 2 ≤ (historicalRevenue [⟨some 7⟩, ⟨some 9⟩]).length := by
    norm_num [historicalRevenue, List.filterMap_cons]
  exact ⟨h1, h2, c9_confidence_amended.1 ⟨none, none, none⟩ _ h1,
    c9_confidence_amended.2 ⟨none, none⟩ _ h2⟩

/-- Claim C10: with every parameter key absent, the fuel variant uses
fuel_increase_percent = 10, time_horizon_months = 12 and fuel_cost_ratio
= 30 percent, and the demand variant uses demand_increase_percent = 15
and time_horizon_months = 12; the echoed result fields carry the
defaulted percent and horizon, and the projected base impact uses
30/100 and 10/100 (the ratio itself is consumed, not echoed). -/
theorem c10_parameter_defaults :
    (∀ rows : List LogisticsRow,
        (predictFuelPriceWithML ⟨none, none, none⟩ rows).fuel_increase_percent = 10 ∧
        (predictFuelPriceWithML ⟨none, none, none⟩ rows).time_horizon_months = 12) ∧
    (∀ sales : List SalesRow,
        (predictDemandWithML ⟨none, none⟩ sales).demand_increase_percent = 15 ∧
        (predictDemandWithML ⟨none, none⟩ sales).time_horizon_months = 12) ∧
    (∀ rows : List LogisticsRow, 2 ≤ (historicalCosts rows).length →
        (predictFuelPriceWithML ⟨none, none, none⟩ rows).projected_cost_increase
          = ((calculateMean (historicalCosts rows) * (rows.length : ℚ)
              * (30 / 100) * (10 / 100) : ℚ) : ℝ)) := by
  refine ⟨?_, ?_, ?_⟩
  · intro rows
    constructor <;> (simp only [predictFuelPriceWithML]; split_ifs <;> rfl)
  · intro sales
    constructor <;> (simp only [predictDemandWithML]; split_ifs <;> rfl)
  · intro rows h2
    simp only [predictFuelPriceWithML]
    rw [if_neg (by omega)]
    rfl

/-- Witness for C10's hypothesised conjunct at two concrete rows. -/
theorem c10_witness :
    2 ≤ (historicalCosts [⟨some 2, some 3⟩, ⟨some 1, some 4⟩]).length ∧
    (predictFuelPriceWithML ⟨none, none, none⟩
        [⟨some 2, some 3⟩, ⟨some 1, some 4⟩]).projected_cost_increase
      = ((calculateMean (historicalCosts [⟨some 2, some 3⟩, ⟨some 1, some 4⟩])
          * (([⟨some 2, some 3⟩, ⟨some 1, some 4⟩] : List LogisticsRow).length : ℚ)
          * (30 / 100) * (10 / 100) : ℚ) : ℝ) := by
  have h1 : 2 ≤ (historicalCosts [⟨some 2, some 3⟩, ⟨some 1, some 4⟩]).length := by
    norm_num [historicalCosts, List.filterMap_cons]
  exact ⟨h1, c10_parameter_defaults.2.2 _ h1⟩

end SimpleML
